import Mathlib

/-!
Verification development for the Process Execution Engine of LLM-Py-Phy-MCP.

The repository ships three near-duplicate servers: `src/server.py` (the main
POSIX-flavoured one), `src/linux/server.py` and `src/windows/server.py`.
The definitions below are shallow embeddings of the deterministic parts of
those files: report formatting, temp-artifact naming and cleanup, interpreter
path resolution, the expression-decoding protocol, the `call_tool` dispatch,
and the shape of each child-process spawn (argument vector and stdin wiring).
Python strings are modelled as Lean `String` / `List Char`; the Python string
helpers the code relies on (`strip`, `split('\n')`, `'\n'.join`, `replace`,
`lower`, left-justified formatting) are re-implemented below with the same
semantics on character lists.
-/

/-- Whitespace recognised by Python `str.strip()`, restricted to the ASCII
range (all protocol text produced by the engine itself is ASCII). -/
def isPySpace (c : Char) : Bool :=
  c = ' ' || c = '\t' || c = '\n' || c = '\r' || c = '\x0b' || c = '\x0c'

/-- Python `s.strip()` on a character list: drop whitespace from both ends. -/
def pyStripL (l : List Char) : List Char :=
  ((l.dropWhile isPySpace).reverse.dropWhile isPySpace).reverse

/-- Python `s.split('\n')` on a character list: cut at every newline; the
empty string yields a single empty field. -/
def splitNL : List Char → List (List Char)
  | [] => [[]]
  | c :: rest =>
    if c = '\n' then [] :: splitNL rest
    else
      match splitNL rest with
      | [] => [[c]]
      | l :: ls => (c :: l) :: ls

/-- Python `'\n'.join(lines)` on character lists. -/
def joinNL : List (List Char) → List Char
  | [] => []
  | [l] => l
  | l :: ls => l ++ '\n' :: joinNL ls

/-- Python `line.replace('__TYPE__', '')`: delete every leftmost-first,
non-overlapping occurrence of the sentinel token. -/
def dropSentinel : List Char → List Char
  | '_' :: '_' :: 'T' :: 'Y' :: 'P' :: 'E' :: '_' :: '_' :: rest => dropSentinel rest
  | c :: rest => c :: dropSentinel rest
  | [] => []

/-- The fixed sentinel token `__TYPE__` of the expression protocol. -/
def SENTINEL : List Char := ['_', '_', 'T', 'Y', 'P', 'E', '_', '_']

/-- The decoding step of `eval_expression` (src/server.py lines 347-350,
src/windows/server.py lines 358-362), applied to the child's captured stdout
when the exit code is zero:
`lines = stdout.strip().split('\n')`,
`value = '\n'.join(lines[:-1]) if len(lines) > 1 else lines[0]`,
`type_info = lines[-1].replace('__TYPE__', '') if lines else 'unknown'`.
(`split` never returns an empty list, so `lines[0]` / `lines[-1]` are modelled
with the total `headD` / `getLast?` accessors.) -/
def decodeEvalStdout (stdout : List Char) : List Char × List Char :=
  let lines := splitNL (pyStripL stdout)
  let value := if 1 < lines.length then joinNL lines.dropLast else lines.headD []
  let typeInfo :=
    match lines.getLast? with
    | some last => dropSentinel last
    | none => "unknown".data
  (value, typeInfo)

/-- stdout produced by the generated wrapper script
`result = <expr>` / `print(result)` / `print(f'__TYPE__' + type name)` when
it succeeds: everything printed before the sentinel line (normally
`str(result)`), then the sentinel line with its trailing newline. -/
def wrapperStdout (value typeName : List Char) : List Char :=
  value ++ '\n' :: (SENTINEL ++ (typeName ++ ['\n']))

/-- Result of a completed child process as `subprocess.run` returns it with
`capture_output=True, text=True`: exit code and decoded stdout/stderr. -/
structure RunResult where
  returncode : Int
  stdout : String
  stderr : String
  deriving DecidableEq

/-- Report built by `execute_python` for a completed run (src/server.py
lines 238-252; the same strings appear in the linux and windows variants). -/
def execute_python_report (r : RunResult) : String :=
  let o1 := "=== Execution Result ===\n" ++ "Exit Code: " ++ toString r.returncode ++ "\n\n"
  let o2 := if r.stdout ≠ "" then o1 ++ "=== STDOUT ===\n" ++ r.stdout ++ "\n" else o1
  let o3 := if r.stderr ≠ "" then o2 ++ "=== STDERR ===\n" ++ r.stderr ++ "\n" else o2
  if r.returncode = 0 then o3 ++ "\n✓ Execution completed successfully"
  else o3 ++ "\n✗ Execution failed with exit code " ++ toString r.returncode

/-- Modelled from the spec, §4.5: the exit-code line of a report. -/
def reportSpecExitLine (r : RunResult) : String :=
  "Exit Code: " ++ toString r.returncode ++ "\n\n"

/-- Modelled from the spec, §4.5: a labeled stdout section present exactly
when the captured stream is non-empty. -/
def reportSpecStdoutSection (r : RunResult) : String :=
  if r.stdout = "" then "" else "=== STDOUT ===\n" ++ r.stdout ++ "\n"

/-- Modelled from the spec, §4.5: a labeled stderr section present exactly
when the captured stream is non-empty. -/
def reportSpecStderrSection (r : RunResult) : String :=
  if r.stderr = "" then "" else "=== STDERR ===\n" ++ r.stderr ++ "\n"

/-- Modelled from the spec, §4.5: the trailing one-line marker, keyed on the
exit code being zero. -/
def reportSpecMarker (r : RunResult) : String :=
  if r.returncode = 0 then "\n✓ Execution completed successfully"
  else "\n✗ Execution failed with exit code " ++ toString r.returncode

/-- The spec's §4.5 report shape: exit-code line, then the two conditional
labeled sections, then the marker. -/
def execute_python_reportSpec (r : RunResult) : String :=
  "=== Execution Result ===\n" ++ reportSpecExitLine r ++ reportSpecStdoutSection r
    ++ reportSpecStderrSection r ++ reportSpecMarker r

/-- Report built by `install_packages` (src/server.py lines 276-288): header,
the command line, the raw stdout appended unconditionally and without a label,
a labeled stderr section only when non-empty, then the marker. -/
def install_packages_report (cmd : List String) (r : RunResult) : String :=
  let o1 := "=== Package Installation ===\n" ++ "Command: " ++ String.intercalate " " cmd ++ "\n\n"
  let o2 := o1 ++ r.stdout
  let o3 := if r.stderr ≠ "" then o2 ++ "\n=== STDERR ===\n" ++ r.stderr else o2
  if r.returncode = 0 then o3 ++ "\n\n✓ Installation completed successfully"
  else o3 ++ "\n\n✗ Installation failed with exit code " ++ toString r.returncode

/-- Behaviour of one spawned child process, abstracted for the deadline race:
the wall-clock seconds it needs to finish, its exit code and full output if
allowed to finish, and the partial output already captured at the moment the
deadline fires. -/
structure ChildProc where
  needsTime : Nat
  exitCode : Int
  fullStdout : String
  fullStderr : String
  partStdout : String
  partStderr : String
  deriving DecidableEq

/-- Outcome of the windows `execute_python` run phase: the returned report
text plus the process-lifecycle facts (whether `kill()` was invoked, and
whether the process has been awaited/reaped before the call returned). -/
structure WinRunOutcome where
  report : String
  killed : Bool
  reaped : Bool
  deriving DecidableEq

/-- The timeout report of the windows `execute_python`
(src/windows/server.py line 206). -/
def winTimeoutText (timeout : Nat) : String :=
  "Execution timed out after " ++ toString timeout ++ " seconds"

/-- src/windows/server.py `execute_python` run phase (lines 186-224):
`asyncio.wait_for(process.communicate(), timeout)` either completes within
the deadline (exit code and fully captured streams go through the shared
formatter; `communicate` reaps the child) or times out, in which case the
code calls `process.kill()`, awaits `process.wait()`, and returns the fixed
timeout text — without the exit code and without the partial streams. -/
def execute_python_win (timeout : Nat) (c : ChildProc) : WinRunOutcome :=
  if c.needsTime ≤ timeout then
    { report := execute_python_report ⟨c.exitCode, c.fullStdout, c.fullStderr⟩
      killed := false
      reaped := true }
  else
    { report := winTimeoutText timeout
      killed := true
      reaped := true }

/-- Python exceptions that escape a tool body to `call_tool`'s
`except Exception` handler. -/
inductive PyExc
  | timeoutExpired (timeout : Nat)
  | jsonDecodeError
  | internalError
  deriving DecidableEq

/-- Modelled from the spec: the text `traceback.format_exc()` renders for an
escaped exception — a traceback naming the exception class (abstracted here
to the class name itself; the repository never inspects this text). -/
def tracebackText : PyExc → String
  | .timeoutExpired t =>
      "subprocess.TimeoutExpired: Command timed out after " ++ toString t ++ " seconds"
  | .jsonDecodeError => "json.decoder.JSONDecodeError"
  | .internalError => "Exception"

/-- The `except Exception` branch of `call_tool` (src/server.py
lines 210-212): an escaped exception becomes a generic per-tool report. -/
def call_tool_error_report (name : String) (e : PyExc) : String :=
  "Error executing " ++ name ++ ":\n" ++ tracebackText e

/-- src/server.py `execute_python` run phase (lines 229-256):
`subprocess.run(..., timeout=timeout)` either completes within the deadline,
or kills and reaps the child and raises `TimeoutExpired` (CPython's
`subprocess.run` semantics); the exception escapes the function. -/
def execute_python_main (timeout : Nat) (c : ChildProc) : Except PyExc String :=
  if c.needsTime ≤ timeout then
    .ok (execute_python_report ⟨c.exitCode, c.fullStdout, c.fullStderr⟩)
  else .error (.timeoutExpired timeout)

/-- What `call_tool` returns for `python_execute` on the main variant: the
tool's own report, or the dispatch-boundary report when the body raised. -/
def call_tool_execute_main (timeout : Nat) (c : ChildProc) : List String :=
  match execute_python_main timeout c with
  | .ok s => [s]
  | .error e => [call_tool_error_report "python_execute" e]

/-- A filesystem abstracted to which paths currently exist. -/
abbrev FsState := String → Bool

/-- `path.write_text(...)`: afterwards the path exists. -/
def fsWrite (fs : FsState) (p : String) : FsState :=
  fun q => if q = p then true else fs q

/-- `path.unlink()`: afterwards the path does not exist. -/
def fsUnlink (fs : FsState) (p : String) : FsState :=
  fun q => if q = p then false else fs q

/-- The `finally` block shared by `execute_python` and `eval_expression`:
`if script_path.exists(): script_path.unlink()`. -/
def artifactCleanup (fs : FsState) (p : String) : FsState :=
  if fs p then fsUnlink fs p else fs

/-- Exit paths of the `try` body of `execute_python` / `eval_expression`:
the child completed (with whatever result), the deadline fired inside
`subprocess.run`, or some other internal exception was raised. -/
inductive RunEvent
  | finished (r : RunResult)
  | deadlineHit (timeout : Nat)
  | raisedInternally

/-- src/server.py `execute_python` artifact lifecycle (lines 226-256): the
temp script is written, the body runs (`during` is an arbitrary filesystem
transformation covering whatever the child or the body itself does to the
filesystem), and the `finally` block removes the artifact on every exit path;
the call's outcome is the report or the escaped exception. -/
def execute_python_lifecycle (fs0 : FsState) (p : String)
    (during : FsState → FsState) (ev : RunEvent) : Except PyExc String × FsState :=
  let fs2 := during (fsWrite fs0 p)
  let res : Except PyExc String :=
    match ev with
    | .finished r => .ok (execute_python_report r)
    | .deadlineHit t => .error (.timeoutExpired t)
    | .raisedInternally => .error .internalError
  (res, artifactCleanup fs2 p)

/-- Report of `eval_expression` once the child finished (src/server.py
lines 347-358): decoded value and type on exit code zero, the child's stderr
otherwise. -/
def eval_expression_body (expression : String) (r : RunResult) : String :=
  if r.returncode = 0 then
    let d := decodeEvalStdout r.stdout.data
    "=== Expression Evaluation ===\n" ++ "Expression: " ++ expression ++ "\n"
      ++ "Result: " ++ ⟨d.1⟩ ++ "\n" ++ "Type: " ++ ⟨d.2⟩
  else
    "Error evaluating expression:\n" ++ expression ++ "\n\n" ++ "Error: " ++ r.stderr ++ "\n"

/-- src/server.py `eval_expression` artifact lifecycle (lines 336-370): like
`execute_python_lifecycle`, except the body's own `except Exception` also
turns the deadline exception and internal exceptions into ordinary error
reports; `finally` removes the artifact in every case. -/
def eval_expression_lifecycle (expression : String) (fs0 : FsState) (p : String)
    (during : FsState → FsState) (ev : RunEvent) : Except PyExc String × FsState :=
  let fs2 := during (fsWrite fs0 p)
  let res : Except PyExc String :=
    match ev with
    | .finished r => .ok (eval_expression_body expression r)
    | .deadlineHit t =>
        .ok ("Error evaluating expression:\n" ++ expression ++ "\n\n" ++ "Error: "
          ++ tracebackText (.timeoutExpired t) ++ "\n" ++ tracebackText (.timeoutExpired t))
    | .raisedInternally =>
        .ok ("Error evaluating expression:\n" ++ expression ++ "\n\n" ++ "Error: "
          ++ tracebackText .internalError ++ "\n" ++ tracebackText .internalError)
  (res, artifactCleanup fs2 p)

/-- The two execution modes that create a temp artifact. -/
inductive ArtifactMode
  | execMode
  | evalMode
  deriving DecidableEq

/-- Temp artifact filename (src/server.py lines 226 and 336):
`f"mcp_exec_{os.getpid()}.py"` resp. `f"mcp_eval_{os.getpid()}.py"` — derived
from the host server's process id and the mode tag only. -/
def artifactFileName : ArtifactMode → Nat → String
  | .execMode, pid => "mcp_exec_" ++ toString pid ++ ".py"
  | .evalMode, pid => "mcp_eval_" ++ toString pid ++ ".py"

/-- One tool invocation, as far as artifact naming is concerned: its mode,
the server process id it runs in, and a serial number distinguishing it from
every other invocation (the name derivation never looks at the serial). -/
structure ArtifactInvocation where
  mode : ArtifactMode
  pid : Nat
  callId : Nat
  deriving DecidableEq

/-- The artifact filename an invocation derives. -/
def invocationArtifactName (i : ArtifactInvocation) : String :=
  artifactFileName i.mode i.pid

/-- One `{name, version}` record parsed from `pip list --format=json`. -/
structure PipPkg where
  name : String
  version : String
  deriving DecidableEq

/-- Python `str.lower()` (ASCII range, which covers package names). -/
def lowerStr (s : String) : String := ⟨s.data.map Char.toLower⟩

/-- The comparison behind `sorted(packages, key=lambda x: x["name"].lower())`:
case-insensitive order on the package name. -/
def pipNameLe (a b : PipPkg) : Bool := decide (lowerStr a.name ≤ lowerStr b.name)

/-- The sort performed by `list_packages` (src/server.py line 387): Python's
stable `sorted` with the lowercased-name key, i.e. a stable merge sort under
`pipNameLe`. -/
def sortPackages (l : List PipPkg) : List PipPkg := l.mergeSort pipNameLe

/-- Python `f"{s:<30}"`: left-justify to the given width with spaces. -/
def padTo (s : String) (n : Nat) : String :=
  s ++ ⟨List.replicate (n - s.length) ' '⟩

/-- Report of `list_packages` on parse success (src/server.py
lines 381-390). -/
def list_packages_report (pkgs : List PipPkg) : String :=
  let header := "=== Installed Python Packages ===\n\n"
    ++ padTo "Package" 30 ++ " Version\n"
    ++ (⟨List.replicate 50 '='⟩ : String) ++ "\n"
  let rows := (sortPackages pkgs).foldl
    (fun acc p => acc ++ padTo p.name 30 ++ " " ++ p.version ++ "\n") header
  rows ++ "\nTotal: " ++ toString pkgs.length ++ " packages"

/-- `list_packages` (src/server.py lines 373-394): the child's exit code plus
the outcome of `json.loads` on its stdout (`none` models a
`JSONDecodeError`, which escapes the function body). -/
def list_packages_outcome (rc : Int) (parsed : Option (List PipPkg)) (stderr : String) :
    Except PyExc String :=
  if rc = 0 then
    match parsed with
    | some pkgs => .ok (list_packages_report pkgs)
    | none => .error .jsonDecodeError
  else .ok ("Error listing packages:\n" ++ stderr)

/-- What `call_tool` returns for `python_list_packages`. -/
def call_tool_list_packages (rc : Int) (parsed : Option (List PipPkg)) (stderr : String) :
    List String :=
  match list_packages_outcome rc parsed stderr with
  | .ok s => [s]
  | .error e => [call_tool_error_report "python_list_packages" e]

/-- What a filesystem path currently is, for the interpreter resolver. -/
inductive FsEntry
  | absent
  | file
  | dir
  deriving DecidableEq

/-- Environment observed by `get_venv_python`: whether the process already
runs inside a virtual environment (`sys.real_prefix` set, or base and
runtime installation roots differing), the running executable's own path,
and what each candidate path under the script directory currently is. -/
structure ResolveEnv where
  inVenv : Bool
  sysExecutable : String
  fs : String → FsEntry

/-- Result of `get_venv_python`: the chosen interpreter path, and whether a
fallback warning was printed to stderr. -/
structure ResolveOut where
  path : String
  warned : Bool
  deriving DecidableEq

/-- The probe loop of the linux/windows resolvers: first candidate that
`is_file()`. -/
def resolveProbe (e : ResolveEnv) : List String → Option String
  | [] => none
  | c :: rest => if e.fs c = .file then some c else resolveProbe e rest

/-- The probe chain of the main resolver, which tests with `exists()`
(any filesystem entry, directories included). -/
def resolveProbeExists (e : ResolveEnv) : List String → Option String
  | [] => none
  | c :: rest => if e.fs c ≠ .absent then some c else resolveProbeExists e rest

/-- Candidates of src/server.py `get_venv_python` (lines 25-47), in order. -/
def mainVenvCandidates : List String :=
  ["venv/bin/python", ".venv/bin/python", "env/bin/python"]

/-- Candidates of src/linux/server.py `get_venv_python` (lines 36-40). -/
def linuxVenvCandidates : List String :=
  ["venv/bin/python", ".venv/bin/python", "venv/Scripts/python.exe"]

/-- Candidates of src/windows/server.py `get_venv_python` (lines 39-43). -/
def winVenvCandidates : List String :=
  ["venv/Scripts/python.exe", ".venv/Scripts/python.exe", "venv/bin/python"]

/-- src/server.py `get_venv_python` (lines 25-47): in-venv check, then the
candidates probed with `exists()`, then fallback to `sys.executable` with a
stderr warning. -/
def get_venv_python_main (e : ResolveEnv) : ResolveOut :=
  if e.inVenv then ⟨e.sysExecutable, false⟩
  else if e.fs "venv/bin/python" ≠ .absent then ⟨"venv/bin/python", false⟩
  else if e.fs ".venv/bin/python" ≠ .absent then ⟨".venv/bin/python", false⟩
  else if e.fs "env/bin/python" ≠ .absent then ⟨"env/bin/python", false⟩
  else ⟨e.sysExecutable, true⟩

/-- src/linux/server.py `get_venv_python` (lines 25-48): in-venv check, the
candidates probed with `is_file()`, fallback with a stderr warning. -/
def get_venv_python_linux (e : ResolveEnv) : ResolveOut :=
  if e.inVenv then ⟨e.sysExecutable, false⟩
  else
    match resolveProbe e linuxVenvCandidates with
    | some c => ⟨c, false⟩
    | none => ⟨e.sysExecutable, true⟩

/-- src/windows/server.py `get_venv_python` (lines 28-50): in-venv check, the
candidates probed with `is_file()`, silent fallback (no warning printed). -/
def get_venv_python_win (e : ResolveEnv) : ResolveOut :=
  if e.inVenv then ⟨e.sysExecutable, false⟩
  else
    match resolveProbe e winVenvCandidates with
    | some c => ⟨c, false⟩
    | none => ⟨e.sysExecutable, false⟩

/-- Modelled from the spec, §4.1 resolver contract: in-venv check, then the
first candidate existing as a regular file, then fallback to the running
executable with a non-fatal warning. -/
def resolveSpec (cands : List String) (e : ResolveEnv) : ResolveOut :=
  if e.inVenv then ⟨e.sysExecutable, false⟩
  else
    match resolveProbe e cands with
    | some c => ⟨c, false⟩
    | none => ⟨e.sysExecutable, true⟩

/-- Like `resolveSpec` but testing candidates with existence of any entry —
the behaviour the main resolver actually implements. -/
def resolveSpecExists (cands : List String) (e : ResolveEnv) : ResolveOut :=
  if e.inVenv then ⟨e.sysExecutable, false⟩
  else
    match resolveProbeExists e cands with
    | some c => ⟨c, false⟩
    | none => ⟨e.sysExecutable, true⟩

/-- The five tool names `call_tool` recognises (src/server.py
lines 198-207). -/
def knownToolNames : List String :=
  ["python_execute", "python_install", "python_run_script", "python_eval",
    "python_list_packages"]

/-- The `call_tool` dispatch chain (src/server.py lines 194-212), with the
five tool bodies abstracted by the report lists they would return. -/
def call_tool_dispatch (name : String)
    (onExecute onInstall onScript onEval onList : List String) : List String :=
  if name = "python_execute" then onExecute
  else if name = "python_install" then onInstall
  else if name = "python_run_script" then onScript
  else if name = "python_eval" then onEval
  else if name = "python_list_packages" then onList
  else ["Unknown tool: " ++ name]

/-- How a spawned child's standard input is wired. -/
inductive StdinBind
  | inheritParent
  | devnull
  deriving DecidableEq

/-- One child-process spawn: its argument vector and stdin wiring. -/
structure SpawnCall where
  argv : List String
  stdinBind : StdinBind
  deriving DecidableEq

/-- src/server.py `execute_python` spawn (lines 230-236): `subprocess.run`
with no `stdin` argument — the child inherits the parent's stdin. -/
def spawn_execute_main (venv script : String) : SpawnCall :=
  ⟨[venv, script], .inheritParent⟩

/-- src/server.py `install_packages` spawn (lines 264-274); `pkgTokens` is
`packages.split()`. No `stdin` argument. -/
def spawn_install_main (venv : String) (upgrade : Bool) (pkgTokens : List String) : SpawnCall :=
  ⟨[venv, "-m", "pip", "install"] ++ (if upgrade then ["--upgrade"] else []) ++ pkgTokens,
    .inheritParent⟩

/-- src/server.py `run_script` spawn (lines 301-309). No `stdin` argument. -/
def spawn_run_script_main (venv script : String) (args : List String) : SpawnCall :=
  ⟨[venv, script] ++ args, .inheritParent⟩

/-- src/server.py `eval_expression` spawn (lines 340-345). No `stdin`
argument. -/
def spawn_eval_main (venv script : String) : SpawnCall :=
  ⟨[venv, script], .inheritParent⟩

/-- src/server.py `list_packages` spawn (lines 375-379). No `stdin`
argument. -/
def spawn_list_main (venv : String) : SpawnCall :=
  ⟨[venv, "-m", "pip", "list", "--format=json"], .inheritParent⟩

/-- src/linux/server.py `execute_python` spawn (lines 279-285):
`subprocess.run` with no `stdin` argument either. -/
def spawn_execute_linux (venv script : String) : SpawnCall :=
  ⟨[venv, script], .inheritParent⟩

/-- src/windows/server.py `execute_python` spawn (lines 188-195):
`stdin=asyncio.subprocess.DEVNULL`. -/
def spawn_execute_win (venv script : String) : SpawnCall :=
  ⟨[venv, script], .devnull⟩

/-- src/windows/server.py `install_packages` spawn (lines 242-247):
`stdin=DEVNULL`. -/
def spawn_install_win (venv : String) (upgrade : Bool) (pkgTokens : List String) : SpawnCall :=
  ⟨[venv, "-m", "pip", "install"] ++ (if upgrade then ["--upgrade"] else []) ++ pkgTokens,
    .devnull⟩

/-- src/windows/server.py `run_script` spawn (lines 290-296):
`stdin=DEVNULL`. -/
def spawn_run_script_win (venv script : String) (args : List String) : SpawnCall :=
  ⟨[venv, script] ++ args, .devnull⟩

/-- src/windows/server.py `eval_expression` spawn (lines 339-345):
`stdin=DEVNULL`. -/
def spawn_eval_win (venv script : String) : SpawnCall :=
  ⟨[venv, script], .devnull⟩

/-- src/windows/server.py `list_packages` spawn (lines 388-397):
`stdin=DEVNULL`. -/
def spawn_list_win (venv : String) : SpawnCall :=
  ⟨[venv, "-m", "pip", "list", "--format=json"], .devnull⟩

/-- Concrete child whose process outlives a 30-second deadline having already
written `hello` / `world` to its pipes. -/
def c1Child : ChildProc := ⟨31, 0, "", "", "hello", "world"⟩

/-- Concrete child completing well inside a 30-second deadline. -/
def c1Quick : ChildProc := ⟨1, 0, "done\n", "", "done\n", ""⟩

/-- Concrete completed `pip install` run used against the report-shape
claim. -/
def c6Result : RunResult := ⟨0, "ok\n", ""⟩

/-- The `pip install` command line for `c6Result`. -/
def c6Cmd : List String := ["/venv/bin/python", "-m", "pip", "install", "requests"]

/-- Environment in which `venv/bin/python` exists but is a directory. -/
def c8Env : ResolveEnv :=
  { inVenv := false
    sysExecutable := "/usr/bin/python3"
    fs := fun p => if p = "venv/bin/python" then .dir else .absent }

/-- Python `repr` of a string containing no quote or escape characters, as
`str(list)` renders each element (all inputs used here are plain paths and
argument words). -/
def pyReprStr (s : String) : String := "'" ++ s ++ "'"

/-- Python `str(script_args)` for a list of such strings: `[]`, `['a']`,
`['a', 'b']`. -/
def pyReprStrList (xs : List String) : String :=
  "[" ++ String.intercalate ", " (xs.map pyReprStr) ++ "]"

/-- Report built by `run_script` for a completed run (src/server.py
lines 311-325; identical strings in the windows variant). -/
def run_script_report (script : String) (args : List String) (r : RunResult) : String :=
  let o1 := "=== Script Execution ===\n" ++ "Script: " ++ script ++ "\n"
    ++ "Args: " ++ pyReprStrList args ++ "\n"
    ++ "Exit Code: " ++ toString r.returncode ++ "\n\n"
  let o2 := if r.stdout ≠ "" then o1 ++ "=== STDOUT ===\n" ++ r.stdout ++ "\n" else o1
  let o3 := if r.stderr ≠ "" then o2 ++ "=== STDERR ===\n" ++ r.stderr ++ "\n" else o2
  if r.returncode = 0 then o3 ++ "\n✓ Script completed successfully"
  else o3 ++ "\n✗ Script failed with exit code " ++ toString r.returncode

/-- Modelled from the spec, §4.5: the `run_script` trailing marker, keyed on
the exit code being zero. -/
def scriptSpecMarker (r : RunResult) : String :=
  if r.returncode = 0 then "\n✓ Script completed successfully"
  else "\n✗ Script failed with exit code " ++ toString r.returncode

/-- The spec's §4.5 shape of the `run_script` report: header lines, the
exit-code line, the two conditional labeled sections, then the marker. -/
def run_script_reportSpec (script : String) (args : List String) (r : RunResult) : String :=
  "=== Script Execution ===\n" ++ "Script: " ++ script ++ "\n"
    ++ "Args: " ++ pyReprStrList args ++ "\n" ++ reportSpecExitLine r
    ++ reportSpecStdoutSection r ++ reportSpecStderrSection r ++ scriptSpecMarker r

/-- The timeout report of the windows `install_packages`
(src/windows/server.py line 256). -/
def winInstallTimeoutText : String :=
  "Package installation timed out after 300 seconds"

/-- The timeout report of the windows `run_script`
(src/windows/server.py line 305). -/
def winScriptTimeoutText (timeout : Nat) : String :=
  "Script execution timed out after " ++ toString timeout ++ " seconds"

/-- The timeout report of the windows `eval_expression`
(src/windows/server.py line 354). -/
def winEvalTimeoutText (expression : String) : String :=
  "Expression evaluation timed out: " ++ expression

/-- src/windows/server.py `install_packages` run phase (lines 242-272):
completes within the fixed 300-second deadline, or `kill()` / `wait()` and
the fixed timeout text. -/
def install_packages_win (cmd : List String) (c : ChildProc) : WinRunOutcome :=
  if c.needsTime ≤ 300 then
    { report := install_packages_report cmd ⟨c.exitCode, c.fullStdout, c.fullStderr⟩
      killed := false
      reaped := true }
  else
    { report := winInstallTimeoutText
      killed := true
      reaped := true }

/-- src/windows/server.py `run_script` run phase (lines 290-325): completes
within the caller's deadline, or `kill()` / `wait()` and the fixed timeout
text. -/
def run_script_win (timeout : Nat) (script : String) (args : List String)
    (c : ChildProc) : WinRunOutcome :=
  if c.needsTime ≤ timeout then
    { report := run_script_report script args ⟨c.exitCode, c.fullStdout, c.fullStderr⟩
      killed := false
      reaped := true }
  else
    { report := winScriptTimeoutText timeout
      killed := true
      reaped := true }

/-- src/windows/server.py `eval_expression` run phase (lines 339-372):
completes within the fixed 10-second deadline, or `kill()` / `wait()` and the
fixed timeout text naming the expression. -/
def eval_expression_win (expression : String) (c : ChildProc) : WinRunOutcome :=
  if c.needsTime ≤ 10 then
    { report := eval_expression_body expression ⟨c.exitCode, c.fullStdout, c.fullStderr⟩
      killed := false
      reaped := true }
  else
    { report := winEvalTimeoutText expression
      killed := true
      reaped := true }

/-- src/server.py `install_packages` run phase (lines 264-288):
`subprocess.run(..., timeout=300)` completes or raises `TimeoutExpired`,
which escapes the function. -/
def install_packages_main (cmd : List String) (c : ChildProc) : Except PyExc String :=
  if c.needsTime ≤ 300 then
    .ok (install_packages_report cmd ⟨c.exitCode, c.fullStdout, c.fullStderr⟩)
  else .error (.timeoutExpired 300)

/-- What `call_tool` returns for `python_install` on the main variant. -/
def call_tool_install_main (cmd : List String) (c : ChildProc) : List String :=
  match install_packages_main cmd c with
  | .ok s => [s]
  | .error e => [call_tool_error_report "python_install" e]

/-- src/server.py `run_script` run phase (lines 301-325):
`subprocess.run(..., timeout=timeout)` completes or raises `TimeoutExpired`,
which escapes the function. -/
def run_script_main (timeout : Nat) (script : String) (args : List String)
    (c : ChildProc) : Except PyExc String :=
  if c.needsTime ≤ timeout then
    .ok (run_script_report script args ⟨c.exitCode, c.fullStdout, c.fullStderr⟩)
  else .error (.timeoutExpired timeout)

/-- What `call_tool` returns for `python_run_script` on the main variant. -/
def call_tool_run_script_main (timeout : Nat) (script : String) (args : List String)
    (c : ChildProc) : List String :=
  match run_script_main timeout script args c with
  | .ok s => [s]
  | .error e => [call_tool_error_report "python_run_script" e]

/-- Concrete child outliving every deadline used below (30 s, 300 s, 10 s)
with partial output already captured. -/
def c1Slow : ChildProc := ⟨1000, 0, "", "", "hello", "world"⟩

/-! ### Helper lemmas -/

theorem splitNL_ne_nil (l : List Char) : splitNL l ≠ [] := by
  match l with
  | [] => simp [splitNL]
  | c :: rest =>
    simp only [splitNL]
    split
    · simp
    · split <;> simp

theorem splitNL_of_no_newline (b : List Char) (h : '\n' ∉ b) : splitNL b = [b] := by
  induction b with
  | nil => simp [splitNL]
  | cons c rest ih =>
    have hc : c ≠ '\n' := by
      intro hc
      exact h (hc ▸ List.mem_cons_self c rest)
    have hr : '\n' ∉ rest := fun hm => h (List.mem_cons_of_mem _ hm)
    simp only [splitNL, if_neg hc, ih hr]

theorem splitNL_cons_newline (rest : List Char) :
    splitNL ('\n' :: rest) = [] :: splitNL rest := by
  simp [splitNL]

theorem splitNL_cons_other {c : Char} (hc : c ≠ '\n') {rest l : List Char}
    {ls : List (List Char)} (h : splitNL rest = l :: ls) :
    splitNL (c :: rest) = (c :: l) :: ls := by
  simp [splitNL, hc, h]

theorem splitNL_append (a b : List Char) :
    splitNL (a ++ '\n' :: b) = splitNL a ++ splitNL b := by
  induction a with
  | nil => simp [splitNL, splitNL_cons_newline]
  | cons c a' ih =>
    by_cases hc : c = '\n'
    · subst hc
      rw [List.cons_append, splitNL_cons_newline, splitNL_cons_newline, ih,
        List.cons_append]
    · obtain ⟨l, ls, hls⟩ := List.exists_cons_of_ne_nil (splitNL_ne_nil a')
      rw [List.cons_append, splitNL_cons_other hc (by rw [ih, hls]; rfl),
        splitNL_cons_other hc hls, List.cons_append]
      rfl

theorem joinNL_cons_cons (c : Char) (s : List Char) (ss : List (List Char)) :
    joinNL ((c :: s) :: ss) = c :: joinNL (s :: ss) := by
  cases ss with
  | nil => rfl
  | cons t ts => rfl

theorem joinNL_splitNL (l : List Char) : joinNL (splitNL l) = l := by
  induction l with
  | nil => rfl
  | cons c rest ih =>
    obtain ⟨l0, ls0, hls⟩ := List.exists_cons_of_ne_nil (splitNL_ne_nil rest)
    by_cases hc : c = '\n'
    · subst hc
      simp only [splitNL, if_pos rfl, hls]
      show '\n' :: joinNL (l0 :: ls0) = '\n' :: rest
      rw [← hls, ih]
    · simp only [splitNL, if_neg hc, hls]
      show joinNL ((c :: l0) :: ls0) = c :: rest
      rw [joinNL_cons_cons, ← hls, ih]

theorem dropWhile_cons_of_neg {p : Char → Bool} {c : Char} {l : List Char}
    (h : p c = false) : List.dropWhile p (c :: l) = c :: l := by
  simp [List.dropWhile_cons, h]

theorem stripTrail_concat_neg (l : List Char) (d : Char) (hd : isPySpace d = false) :
    ((l ++ [d]).reverse.dropWhile isPySpace).reverse = l ++ [d] := by
  rw [List.reverse_append]
  simp only [List.reverse_cons, List.reverse_nil, List.nil_append, List.singleton_append]
  rw [dropWhile_cons_of_neg hd, List.reverse_cons, List.reverse_reverse]

theorem stripTrail_newline (l : List Char) :
    ((l ++ ['\n']).reverse.dropWhile isPySpace).reverse
      = (l.reverse.dropWhile isPySpace).reverse := by
  rw [List.reverse_append]
  simp only [List.reverse_cons, List.reverse_nil, List.nil_append, List.singleton_append]
  rw [List.dropWhile_cons]
  norm_num [isPySpace]

theorem dropSentinel_sentinel_append (l : List Char) :
    dropSentinel (SENTINEL ++ l) = dropSentinel l := by
  show dropSentinel ('_' :: '_' :: 'T' :: 'Y' :: 'P' :: 'E' :: '_' :: '_' :: l)
      = dropSentinel l
  simp [dropSentinel]

theorem head_take_absurd {l1 l2 r1 r2 : List Char} (n : Nat)
    (h1 : n ≤ l1.length) (h2 : n ≤ l2.length) (hne : l1.take n ≠ l2.take n)
    (h : l1 ++ r1 = l2 ++ r2) : False := by
  have ht := congrArg (List.take n) h
  rw [List.take_append_of_le_length h1, List.take_append_of_le_length h2] at ht
  exact hne ht

theorem pyStripL_wrapper (v t : List Char) (hv : v ≠ [])
    (hvh : isPySpace (v.headD ' ') = false)
    (ht : t ≠ []) (htl : isPySpace (t.getLastD ' ') = false) :
    pyStripL (wrapperStdout v t) = v ++ '\n' :: (SENTINEL ++ t) := by
  obtain ⟨vc, v', rfl⟩ := List.exists_cons_of_ne_nil hv
  rcases List.eq_nil_or_concat t with rfl | ⟨t0, tc, rfl⟩
  · exact absurd rfl ht
  simp only [List.concat_eq_append] at ht htl ⊢
  have hvc : isPySpace vc = false := by simpa using hvh
  have htc : isPySpace tc = false := by simpa [List.getLastD_concat] using htl
  unfold pyStripL wrapperStdout
  rw [List.cons_append, dropWhile_cons_of_neg hvc]
  have hshape : vc :: (v' ++ '\n' :: (SENTINEL ++ ((t0 ++ [tc]) ++ ['\n'])))
      = ((vc :: v') ++ '\n' :: (SENTINEL ++ (t0 ++ [tc]))) ++ ['\n'] := by
    simp [List.append_assoc]
  rw [hshape, stripTrail_newline]
  have hshape2 : (vc :: v') ++ '\n' :: (SENTINEL ++ (t0 ++ [tc]))
      = ((vc :: v') ++ '\n' :: (SENTINEL ++ t0)) ++ [tc] := by
    simp [List.append_assoc]
  rw [hshape2, stripTrail_concat_neg _ _ htc]

/-! ### Claim theorems -/

set_option maxRecDepth 8192 in
/-- Claim C5 counterexample: two reachable exit-0 `python_eval` invocations
where the decode diverges from the claimed split/strip-last-line protocol.
Evaluating `''` (printed value empty) reports the sentinel line itself as the
value instead of the empty rejoin of the preceding lines, and evaluating
`' hello'` loses the value's leading whitespace to the initial `strip()`. -/
theorem c5_eval_decode_cex :
    decodeEvalStdout (wrapperStdout "".data "str".data) ≠ ("".data, "str".data) ∧
    decodeEvalStdout (wrapperStdout "".data "str".data)
      = ("__TYPE__str".data, "str".data) ∧
    decodeEvalStdout (wrapperStdout " hello".data "str".data)
      ≠ (" hello".data, "str".data) ∧
    decodeEvalStdout (wrapperStdout " hello".data "str".data)
      = ("hello".data, "str".data) := by
  decide

/-- Claim C5, amended: the captured stdout is first stripped of leading and
trailing whitespace and then split on line breaks; whenever the printed value
has no whitespace at its edges and is non-empty, and the type name is a
newline-free identifier without an embedded sentinel (true of every Python
type name), the decode returns exactly the printed value and the type label —
the claimed behaviour.  Outside those conditions the strip loses the value's
edge whitespace, and an empty printed value collapses the output to the
single sentinel line, which is then itself reported as the value. -/
theorem c5_eval_decode (v t : List Char) (hv : v ≠ [])
    (hvh : isPySpace (v.headD ' ') = false)
    (ht : t ≠ []) (htl : isPySpace (t.getLastD ' ') = false)
    (htn : '\n' ∉ t) (hts : dropSentinel t = t) :
    decodeEvalStdout (wrapperStdout v t) = (v, t) := by
  have hnonl : '\n' ∉ SENTINEL ++ t := by
    intro hm
    rcases List.mem_append.mp hm with h | h
    · simp [SENTINEL] at h
    · exact htn h
  have hstrip := pyStripL_wrapper v t hv hvh ht htl
  have hsplit : splitNL (pyStripL (wrapperStdout v t)) = splitNL v ++ [SENTINEL ++ t] := by
    rw [hstrip, splitNL_append, splitNL_of_no_newline _ hnonl]
  obtain ⟨l0, ls0, hls⟩ := List.exists_cons_of_ne_nil (splitNL_ne_nil v)
  have hlen : 1 < (splitNL v ++ [SENTINEL ++ t]).length := by
    rw [hls]
    simp
  have hstep : decodeEvalStdout (wrapperStdout v t)
      = (joinNL (splitNL v ++ [SENTINEL ++ t]).dropLast, dropSentinel (SENTINEL ++ t)) := by
    simp only [decodeEvalStdout, hsplit, if_pos hlen, List.getLast?_concat]
  rw [hstep, List.dropLast_concat, joinNL_splitNL, dropSentinel_sentinel_append, hts]

/-- Claim C5 witness: the two round-trips demanded by the spec, `2 + 2`
giving value `4` of type `int`, and `'a' * 3` giving `aaa` of type `str`. -/
theorem c5_eval_decode_witness :
    decodeEvalStdout (wrapperStdout "4".data "int".data) = ("4".data, "int".data) ∧
    decodeEvalStdout (wrapperStdout "aaa".data "str".data) = ("aaa".data, "str".data) :=
  ⟨c5_eval_decode "4".data "int".data (by decide) (by decide) (by decide) (by decide)
      (by decide) (by decide),
    c5_eval_decode "aaa".data "str".data (by decide) (by decide) (by decide) (by decide)
      (by decide) (by decide)⟩

/-- Claim C10: when the child exits 0 and the stripped stdout has exactly one
line, the reported value is that single line itself (not empty), and the
type label is the same line with every sentinel occurrence removed. -/
theorem c10_single_line_decode (s : List Char)
    (h : (splitNL (pyStripL s)).length = 1) :
    decodeEvalStdout s
      = ((splitNL (pyStripL s)).headD [],
        dropSentinel ((splitNL (pyStripL s)).headD [])) := by
  obtain ⟨x, hx⟩ := List.length_eq_one.mp h
  simp [decodeEvalStdout, hx]

/-- Claim C10 witness: a child printing an empty value line yields the
sentinel-bearing line `__TYPE__str` as the reported value — non-empty — and
`str` as the type. -/
theorem c10_single_line_decode_witness :
    (splitNL (pyStripL "\n__TYPE__str\n".data)).length = 1 ∧
    decodeEvalStdout "\n__TYPE__str\n".data = ("__TYPE__str".data, "str".data) ∧
    "__TYPE__str".data ≠ [] := by
  refine ⟨by decide, ?_, by decide⟩
  rw [c10_single_line_decode _ (by decide)]
  decide

/-- Claim C3: the temp artifact path does not exist after the call returns,
on every exit path — normal completion, child failure, timeout, or an
internal exception raised after the artifact was created — and for any
filesystem activity of the child itself. -/
theorem c3_artifact_removed_all_paths (fs0 : FsState) (p : String)
    (during : FsState → FsState) (expression : String) (ev : RunEvent) :
    (execute_python_lifecycle fs0 p during ev).2 p = false ∧
    (eval_expression_lifecycle expression fs0 p during ev).2 p = false := by
  constructor <;>
    · simp only [execute_python_lifecycle, eval_expression_lifecycle, artifactCleanup]
      split
      · simp [fsUnlink]
      · simp_all

/-- Claim C9: a `call_tool` invocation with an unknown tool name returns
exactly one text report reading `Unknown tool: <name>`. -/
theorem c9_unknown_tool (name : String) (h : name ∉ knownToolNames)
    (onExecute onInstall onScript onEval onList : List String) :
    call_tool_dispatch name onExecute onInstall onScript onEval onList
      = ["Unknown tool: " ++ name] := by
  simp only [knownToolNames, List.mem_cons, List.not_mem_nil, or_false, not_or] at h
  obtain ⟨h1, h2, h3, h4, h5⟩ := h
  simp [call_tool_dispatch, h1, h2, h3, h4, h5]

/-- Claim C9 witness: dispatching the unknown name `python_shutdown`. -/
theorem c9_unknown_tool_witness :
    "python_shutdown" ∉ knownToolNames ∧
    call_tool_dispatch "python_shutdown" [] [] [] [] []
      = ["Unknown tool: python_shutdown"] := by
  refine ⟨by decide, ?_⟩
  rw [c9_unknown_tool "python_shutdown" (by decide) [] [] [] [] []]
  decide

/-- Claim C2, evaluated at the failing inputs: every spawn of the main and
linux variants leaves stdin inherited from the parent, while all five
windows spawns bind it to the discard source. -/
theorem c2_stdin_binding_bug :
    (spawn_execute_main "/repo/venv/bin/python" "/tmp/mcp_exec_1234.py").stdinBind
        = StdinBind.inheritParent ∧
    (spawn_install_main "/repo/venv/bin/python" false ["requests"]).stdinBind
        = StdinBind.inheritParent ∧
    (spawn_run_script_main "/repo/venv/bin/python" "/home/u/s.py" []).stdinBind
        = StdinBind.inheritParent ∧
    (spawn_eval_main "/repo/venv/bin/python" "/tmp/mcp_eval_1234.py").stdinBind
        = StdinBind.inheritParent ∧
    (spawn_list_main "/repo/venv/bin/python").stdinBind = StdinBind.inheritParent ∧
    (spawn_execute_linux "/repo/venv/bin/python" "/tmp/mcp_exec_1234.py").stdinBind
        = StdinBind.inheritParent ∧
    (spawn_execute_win "C:/venv/Scripts/python.exe" "C:/t/mcp_exec_1234.py").stdinBind
        = StdinBind.devnull ∧
    (spawn_install_win "C:/venv/Scripts/python.exe" false ["requests"]).stdinBind
        = StdinBind.devnull ∧
    (spawn_run_script_win "C:/venv/Scripts/python.exe" "C:/u/s.py" []).stdinBind
        = StdinBind.devnull ∧
    (spawn_eval_win "C:/venv/Scripts/python.exe" "C:/t/mcp_eval_1234.py").stdinBind
        = StdinBind.devnull ∧
    (spawn_list_win "C:/venv/Scripts/python.exe").stdinBind = StdinBind.devnull := by
  decide

/-- Claim C4 counterexample: two distinct concurrent invocations of the same
mode in the same server process derive the same temp artifact filename. -/
theorem c4_same_pid_collision_cex :
    (⟨ArtifactMode.execMode, 4242, 0⟩ : ArtifactInvocation)
        ≠ ⟨ArtifactMode.execMode, 4242, 1⟩ ∧
    invocationArtifactName ⟨ArtifactMode.execMode, 4242, 0⟩
        = invocationArtifactName ⟨ArtifactMode.execMode, 4242, 1⟩ := by
  decide

/-- Claim C4, amended: artifact filenames depend only on the mode tag and the
host process id; distinct modes never collide, but invocations sharing mode
and process id always derive the same filename. -/
theorem c4_artifact_name_amended (m : ArtifactMode) (p q c c' : Nat) :
    artifactFileName ArtifactMode.execMode p ≠ artifactFileName ArtifactMode.evalMode q ∧
    invocationArtifactName ⟨m, p, c⟩ = invocationArtifactName ⟨m, p, c'⟩ := by
  constructor
  · intro h
    have hd := congrArg String.data h
    simp only [artifactFileName, String.data_append, List.append_assoc] at hd
    exact head_take_absurd 6 (by decide) (by decide) (by decide) hd
  · rfl

/-- Claim C1 counterexample: a child outliving a 30-second deadline with
partial output `hello` already captured; the timeout report of the windows
`execute_python` does not contain that captured output. -/
theorem c1_timeout_report_drops_output_cex :
    30 < c1Child.needsTime ∧
    c1Child.partStdout = "hello" ∧
    (execute_python_win 30 c1Child).killed = true ∧
    (execute_python_win 30 c1Child).reaped = true ∧
    ¬ (c1Child.partStdout.data <:+: (execute_python_win 30 c1Child).report.data) := by
  decide

theorem winTimeoutText_ne_execReport (t : Nat) (r : RunResult) :
    winTimeoutText t ≠ execute_python_report r := by
  intro h
  have hd := congrArg String.data h
  simp only [winTimeoutText, execute_python_report] at hd
  split_ifs at hd <;>
    simp only [String.data_append, List.append_assoc] at hd <;>
    exact head_take_absurd 1 (by decide) (by decide) (by decide) hd

theorem take_absurd_one_sided {l1 r1 l2 : List Char} (n : Nat)
    (h1 : n ≤ l1.length) (hne : l1.take n ≠ l2.take n) (h : l1 ++ r1 = l2) : False := by
  have ht := congrArg (List.take n) h
  rw [List.take_append_of_le_length h1] at ht
  exact hne ht

theorem winInstallTimeoutText_ne_installReport (cmd : List String) (r : RunResult) :
    winInstallTimeoutText ≠ install_packages_report cmd r := by
  intro h
  have hd := congrArg String.data h.symm
  simp only [install_packages_report, winInstallTimeoutText] at hd
  split_ifs at hd <;>
    simp only [String.data_append, List.append_assoc] at hd <;>
    exact take_absurd_one_sided 1 (by decide) (by decide) hd

theorem winScriptTimeoutText_ne_scriptReport (t : Nat) (script : String)
    (args : List String) (r : RunResult) :
    winScriptTimeoutText t ≠ run_script_report script args r := by
  intro h
  have hd := congrArg String.data h
  simp only [winScriptTimeoutText, run_script_report] at hd
  split_ifs at hd <;>
    simp only [String.data_append, List.append_assoc] at hd <;>
    exact head_take_absurd 1 (by decide) (by decide) (by decide) hd

theorem winEvalTimeoutText_ne_evalBody (expression e' : String) (r : RunResult) :
    winEvalTimeoutText expression ≠ eval_expression_body e' r := by
  intro h
  have hd := congrArg String.data h
  simp only [winEvalTimeoutText, eval_expression_body] at hd
  split_ifs at hd <;>
    simp only [String.data_append, List.append_assoc] at hd <;>
    exact head_take_absurd 3 (by decide) (by decide) (by decide) hd

/-- Claim C1, amended: when the child outlives its deadline, every execution
mode returns a single report distinct from that mode's completed-run reports
and carrying no exit code, but the partial stdout/stderr captured before the
forced termination is discarded, not returned.  On the windows variant every
mode kills and reaps the child and returns its own fixed timeout notice; on
the main variant `python_execute`, `python_install` and `python_run_script`
let `TimeoutExpired` escape to the dispatch boundary, which returns the
generic per-tool error report, while `python_eval` catches the exception
itself and returns its own expression-error report. -/
theorem c1_timeout_report_amended (timeout : Nat) (expression script : String)
    (args cmd : List String) (r : RunResult) (c c' : ChildProc)
    (fs0 : FsState) (p : String) (during : FsState → FsState)
    (h : timeout < c.needsTime) (h' : c'.needsTime ≤ timeout)
    (h300 : 300 < c.needsTime) (h10 : 10 < c.needsTime) :
    execute_python_win timeout c = ⟨winTimeoutText timeout, true, true⟩ ∧
    install_packages_win cmd c = ⟨winInstallTimeoutText, true, true⟩ ∧
    run_script_win timeout script args c = ⟨winScriptTimeoutText timeout, true, true⟩ ∧
    eval_expression_win expression c = ⟨winEvalTimeoutText expression, true, true⟩ ∧
    (execute_python_win timeout c).report ≠ (execute_python_win timeout c').report ∧
    winInstallTimeoutText ≠ install_packages_report cmd r ∧
    winScriptTimeoutText timeout ≠ run_script_report script args r ∧
    winEvalTimeoutText expression ≠ eval_expression_body expression r ∧
    call_tool_execute_main timeout c
      = [call_tool_error_report "python_execute" (PyExc.timeoutExpired timeout)] ∧
    call_tool_install_main cmd c
      = [call_tool_error_report "python_install" (PyExc.timeoutExpired 300)] ∧
    call_tool_run_script_main timeout script args c
      = [call_tool_error_report "python_run_script" (PyExc.timeoutExpired timeout)] ∧
    (eval_expression_lifecycle expression fs0 p during (.deadlineHit 10)).1
      = .ok ("Error evaluating expression:\n" ++ expression ++ "\n\n" ++ "Error: "
          ++ tracebackText (.timeoutExpired 10) ++ "\n"
          ++ tracebackText (.timeoutExpired 10)) := by
  have hc1 : ¬ c.needsTime ≤ timeout := not_le.mpr h
  have hc300 : ¬ c.needsTime ≤ 300 := not_le.mpr h300
  have hc10 : ¬ c.needsTime ≤ 10 := not_le.mpr h10
  refine ⟨by simp [execute_python_win, hc1], by simp [install_packages_win, hc300],
    by simp [run_script_win, hc1], by simp [eval_expression_win, hc10], ?_,
    winInstallTimeoutText_ne_installReport cmd r,
    winScriptTimeoutText_ne_scriptReport timeout script args r,
    winEvalTimeoutText_ne_evalBody expression expression r,
    by simp [call_tool_execute_main, execute_python_main, hc1],
    by simp [call_tool_install_main, install_packages_main, hc300],
    by simp [call_tool_run_script_main, run_script_main, hc1],
    rfl⟩
  simp only [execute_python_win, if_neg hc1, if_pos h']
  exact winTimeoutText_ne_execReport timeout _

/-- Claim C1 amended witness: the deadline races evaluated on `c1Slow`
(outliving the 30-second, 300-second and 10-second deadlines) against
`c1Quick` (completing inside them). -/
theorem c1_timeout_report_amended_witness :
    30 < c1Slow.needsTime ∧ c1Quick.needsTime ≤ 30 ∧
    300 < c1Slow.needsTime ∧ 10 < c1Slow.needsTime ∧
    (execute_python_win 30 c1Slow = ⟨winTimeoutText 30, true, true⟩ ∧
      install_packages_win ["pip", "install", "requests"] c1Slow
        = ⟨winInstallTimeoutText, true, true⟩ ∧
      run_script_win 30 "/home/u/s.py" [] c1Slow = ⟨winScriptTimeoutText 30, true, true⟩ ∧
      eval_expression_win "2 + 2" c1Slow = ⟨winEvalTimeoutText "2 + 2", true, true⟩ ∧
      (execute_python_win 30 c1Slow).report ≠ (execute_python_win 30 c1Quick).report ∧
      winInstallTimeoutText
        ≠ install_packages_report ["pip", "install", "requests"] ⟨0, "", ""⟩ ∧
      winScriptTimeoutText 30 ≠ run_script_report "/home/u/s.py" [] ⟨0, "", ""⟩ ∧
      winEvalTimeoutText "2 + 2" ≠ eval_expression_body "2 + 2" ⟨0, "", ""⟩ ∧
      call_tool_execute_main 30 c1Slow
        = [call_tool_error_report "python_execute" (PyExc.timeoutExpired 30)] ∧
      call_tool_install_main ["pip", "install", "requests"] c1Slow
        = [call_tool_error_report "python_install" (PyExc.timeoutExpired 300)] ∧
      call_tool_run_script_main 30 "/home/u/s.py" [] c1Slow
        = [call_tool_error_report "python_run_script" (PyExc.timeoutExpired 30)] ∧
      (eval_expression_lifecycle "2 + 2" (fun _ => false) "/tmp/mcp_eval_1.py" id
          (.deadlineHit 10)).1
        = .ok ("Error evaluating expression:\n" ++ "2 + 2" ++ "\n\n" ++ "Error: "
            ++ tracebackText (.timeoutExpired 10) ++ "\n"
            ++ tracebackText (.timeoutExpired 10))) :=
  ⟨by decide, by decide, by decide, by decide,
    c1_timeout_report_amended 30 "2 + 2" "/home/u/s.py" [] ["pip", "install", "requests"]
      ⟨0, "", ""⟩ c1Slow c1Quick (fun _ => false) "/tmp/mcp_eval_1.py" id
      (by decide) (by decide) (by decide) (by decide)⟩

set_option maxRecDepth 4096 in
/-- Claim C6 counterexample: the `install_packages` report of a completed run
with non-empty stdout contains no exit-code line and no labeled stdout
section. -/
theorem c6_install_report_cex :
    c6Result.stdout ≠ "" ∧
    ¬ ("Exit Code:".data <:+: (install_packages_report c6Cmd c6Result).data) ∧
    ¬ ("=== STDOUT ===".data <:+: (install_packages_report c6Cmd c6Result).data) := by
  decide

/-- Claim C6, amended: the `execute_python` and `run_script` reports have
exactly the spec's §4.5 shape — header (for `run_script`, its Script and Args
lines), the exit-code line, labeled stdout and stderr sections exactly when
the corresponding stream is non-empty, then the one-line marker indicating
success exactly when the exit code is zero; the formatters are pure functions
of the `RunResult`, so identical results give byte-identical reports.  (The
`install_packages` report, by contrast, has no exit-code line and appends
stdout unconditionally without a label.) -/
theorem c6_report_structure_amended (r : RunResult) (script : String)
    (args : List String) :
    execute_python_report r = execute_python_reportSpec r ∧
    run_script_report script args r = run_script_reportSpec script args r ∧
    (reportSpecMarker r = "\n✓ Execution completed successfully" ↔ r.returncode = 0) ∧
    (scriptSpecMarker r = "\n✓ Script completed successfully" ↔ r.returncode = 0) ∧
    (reportSpecStdoutSection r = "" ↔ r.stdout = "") ∧
    (reportSpecStderrSection r = "" ↔ r.stderr = "") := by
  refine ⟨?_, ?_, ?_, ?_, ?_, ?_⟩
  · apply String.ext
    simp only [execute_python_report, execute_python_reportSpec, reportSpecExitLine,
      reportSpecStdoutSection, reportSpecStderrSection, reportSpecMarker]
    by_cases h1 : r.stdout = "" <;> by_cases h2 : r.stderr = "" <;>
      by_cases h3 : r.returncode = 0 <;>
      simp [h1, h2, h3, String.data_append, List.append_assoc]
  · apply String.ext
    simp only [run_script_report, run_script_reportSpec, reportSpecExitLine,
      reportSpecStdoutSection, reportSpecStderrSection, scriptSpecMarker]
    by_cases h1 : r.stdout = "" <;> by_cases h2 : r.stderr = "" <;>
      by_cases h3 : r.returncode = 0 <;>
      simp [h1, h2, h3, String.data_append, List.append_assoc]
  · constructor
    · intro h
      by_contra hrc
      rw [reportSpecMarker, if_neg hrc] at h
      have hd := congrArg String.data h
      rw [String.data_append] at hd
      have h2 := congrArg (List.take 2) hd
      rw [List.take_append_of_le_length (by decide)] at h2
      exact absurd h2 (by decide)
    · intro h
      simp [reportSpecMarker, h]
  · constructor
    · intro h
      by_contra hrc
      rw [scriptSpecMarker, if_neg hrc] at h
      have hd := congrArg String.data h
      rw [String.data_append] at hd
      have h2 := congrArg (List.take 2) hd
      rw [List.take_append_of_le_length (by decide)] at h2
      exact absurd h2 (by decide)
    · intro h
      simp [scriptSpecMarker, h]
  · constructor
    · intro h
      by_contra hs
      rw [reportSpecStdoutSection, if_neg hs] at h
      have hd := congrArg String.data h
      simp only [String.data_append] at hd
      have hlen := congrArg List.length hd
      simp only [List.length_append] at hlen
      rw [show ("=== STDOUT ===\n".data).length = 15 from rfl,
        show ("\n".data).length = 1 from rfl,
        show ("".data).length = 0 from rfl] at hlen
      omega
    · intro h
      simp [reportSpecStdoutSection, h]
  · constructor
    · intro h
      by_contra hs
      rw [reportSpecStderrSection, if_neg hs] at h
      have hd := congrArg String.data h
      simp only [String.data_append] at hd
      have hlen := congrArg List.length hd
      simp only [List.length_append] at hlen
      rw [show ("=== STDERR ===\n".data).length = 15 from rfl,
        show ("\n".data).length = 1 from rfl,
        show ("".data).length = 0 from rfl] at hlen
      omega
    · intro h
      simp [reportSpecStderrSection, h]

/-- Claim C7: on a parseable `pip list --format=json` reply the report is
rendered from the packages sorted case-insensitively by name (a permutation
of the parsed list); on a malformed reply the `JSONDecodeError` escapes to
the dispatch boundary, which returns a single error report naming the decode
failure instead of crashing. -/
theorem c7_list_packages_sorted_and_decode_error (pkgs : List PipPkg) (stderr : String) :
    call_tool_list_packages 0 (some pkgs) stderr = [list_packages_report pkgs] ∧
    List.Pairwise (fun a b => pipNameLe a b = true) (sortPackages pkgs) ∧
    (sortPackages pkgs).Perm pkgs ∧
    call_tool_list_packages 0 none stderr
      = ["Error executing python_list_packages:\n"
          ++ tracebackText PyExc.jsonDecodeError] := by
  refine ⟨?_, ?_, ?_, ?_⟩
  · simp [call_tool_list_packages, list_packages_outcome]
  · exact List.sorted_mergeSort
      (fun a b c hab hbc => by
        simp only [pipNameLe, decide_eq_true_eq] at hab hbc ⊢
        exact le_trans hab hbc)
      (fun a b => by
        simp only [pipNameLe, Bool.or_eq_true, decide_eq_true_eq]
        exact le_total _ _)
      pkgs
  · exact List.mergeSort_perm pkgs pipNameLe
  · simp [call_tool_list_packages, list_packages_outcome, call_tool_error_report]

/-- Claim C8 counterexample: with `venv/bin/python` present as a directory,
the main resolver returns it even though it is not a regular file (the spec
resolver would fall back with a warning); and with no candidate present at
all, the windows resolver falls back silently where the claim requires a
warning. -/
theorem c8_resolver_cex :
    (get_venv_python_main c8Env).path = "venv/bin/python" ∧
    c8Env.fs "venv/bin/python" ≠ FsEntry.file ∧
    get_venv_python_main c8Env ≠ resolveSpec mainVenvCandidates c8Env ∧
    get_venv_python_win ⟨false, "/usr/bin/python3", fun _ => FsEntry.absent⟩
      ≠ resolveSpec winVenvCandidates ⟨false, "/usr/bin/python3", fun _ => FsEntry.absent⟩ := by
  decide

/-- Claim C8, amended: the linux resolver behaves exactly as claimed
(in-venv check, first candidate existing as a regular file, warned fallback);
the windows resolver is the same except its fallback never warns; and the
main resolver tests candidates with `exists()` — any filesystem entry,
directories included — instead of `is_file()`. -/
theorem c8_resolver_amended (e : ResolveEnv) :
    get_venv_python_linux e = resolveSpec linuxVenvCandidates e ∧
    get_venv_python_win e = ⟨(resolveSpec winVenvCandidates e).path, false⟩ ∧
    get_venv_python_main e = resolveSpecExists mainVenvCandidates e := by
  refine ⟨rfl, ?_, ?_⟩
  · unfold get_venv_python_win resolveSpec
    by_cases h : e.inVenv
    · simp [h]
    · simp only [if_neg h]
      cases resolveProbe e winVenvCandidates <;> simp
  · unfold get_venv_python_main resolveSpecExists mainVenvCandidates
    by_cases h : e.inVenv
    · simp [h]
    · simp only [if_neg h]
      by_cases h1 : e.fs "venv/bin/python" ≠ FsEntry.absent
      · simp [resolveProbeExists, h1]
      · by_cases h2 : e.fs ".venv/bin/python" ≠ FsEntry.absent
        · simp [resolveProbeExists, h1, h2]
        · by_cases h3 : e.fs "env/bin/python" ≠ FsEntry.absent
          · simp [resolveProbeExists, h1, h2, h3]
          · simp [resolveProbeExists, h1, h2, h3]
